import Mathlib

/-!
Shallow embedding of the aegis error-handling library.

The embedding translates the TypeScript sources under `src/`:
* `src/core/types.ts` — data model (`ErrorConfig`, `ErrorAdapter`, results);
* `src/core/constants.ts` — default configuration tables and toast-duration
  constants;
* `src/core/ErrorHandler.ts` — the orchestrator (`handle`, `configure`,
  `setDefaultConfig`, `registerAdapter`, `getErrorVerb`, `logErrorIfNeeded`,
  `shouldLogError`, `calculateMessageDuration`, `createQueryErrorHandler`);
* `src/adapters/axios.ts` and the fetch adapter — status-code classification.

Modelling conventions:
* JavaScript numbers are modelled as `ℚ` (durations) or `Int` (status codes).
* `Record<string, unknown>` metadata bags are modelled as association lists
  `List (String × String)` whose observable content is `lookupLast` (later
  bindings shadow earlier ones, mirroring object spread / `Object.assign`).
* Callbacks that are only invoked for effect (the logger, config actions, the
  `onError` callback) are modelled as events recorded in an output trace.
* A possibly-throwing computation is modelled with `Except Unit`; `handle`
  propagates a rejection exactly where the source does (the un-guarded
  `await Promise.resolve(adapter.extractMetadata(error))`).
* The orchestrator instance is threaded through `handle`, which returns the
  (unchanged) instance alongside the result and the trace, mirroring that the
  method body contains no assignment to `this`.
-/

/-- Severity of an error config: `'info' | 'warning' | 'error' | 'critical'`. -/
inductive Severity where
  | info
  | warning
  | error
  | critical
deriving DecidableEq, Repr

/-- The `logLevel` option: a severity threshold or `'none'`. -/
inductive LogLevel where
  | info
  | warning
  | error
  | critical
  | none
deriving DecidableEq, Repr

/-- The `severityLevels` table of `ErrorHandler.shouldLogError`. -/
def severityLevels : Severity → Nat
  | .info => 0
  | .warning => 1
  | .error => 2
  | .critical => 3

/-- Numeric level of a log level, as used for `minLevel` in `shouldLogError`.
The `.none` case is unreachable there (guarded by the early return). -/
def logLevelNum : LogLevel → Nat
  | .info => 0
  | .warning => 1
  | .error => 2
  | .critical => 3
  | .none => 2

/-- Metadata bag `Record<string, unknown>`, as an association list; the
observable lookup is `lookupLast` (later bindings shadow earlier ones). -/
abbrev Metadata := List (String × String)

/-- Lookup in a metadata bag: the last binding of a key wins, matching
JavaScript object spread and `Object.assign` semantics. -/
def lookupLast (m : Metadata) (k : String) : Option String :=
  (m.reverse.find? (fun p => p.1 == k)).map (fun p => p.2)

/-- Observable events emitted while handling an error: invocations of the
injected `logger` callback, of a config `action`, and of a query-handler
`onError` callback. -/
inductive Event where
  | logCall (message : String) (metadata : Metadata)
  | actionCall (label : String)
  | onErrorCall
deriving DecidableEq, Repr

/-- Number of logger invocations in a trace. -/
def countLogCalls (evs : List Event) : Nat :=
  (evs.filter (fun ev => match ev with | .logCall _ _ => true | _ => false)).length

/-- Configuration for an error verb (`ErrorConfig` in `types.ts`).  The
`action` callback is modelled by an identifying label recorded in the trace. -/
structure ErrorConfig where
  message : String
  action : Option String := Option.none
  severity : Option Severity := Option.none
  duration : Option ℚ := Option.none
  reportable : Option Bool := Option.none
  metadata : Option Metadata := Option.none
deriving DecidableEq, Repr

/-- Pluggable error adapter (`ErrorAdapter` in `types.ts`), over raw errors of
type `ε`.  `extractMetadata` may reject, modelled with `Except Unit`. -/
structure ErrorAdapter (ε : Type) where
  name : String
  canHandle : ε → Bool
  getErrorVerb : ε → String
  extractMetadata : Option (ε → Except Unit Metadata) := Option.none

/-- Result of handling an error (`ErrorResult` in `types.ts`). -/
structure ErrorResult (ε : Type) where
  message : String
  errorVerb : String
  config : ErrorConfig
  originalError : ε
  duration : ℚ

/-- Orchestrator instance state (the private fields of `ErrorHandler`).  The
injected logger callback itself is external; its invocations appear in the
trace. -/
structure ErrorHandler (ε : Type) where
  defaultConfig : ErrorConfig
  errorConfigs : String → Option ErrorConfig
  adapters : List (ErrorAdapter ε) := []
  logLevel : LogLevel := .error
  logAllErrors : Bool := false

/-- Constant `BASE_TOAST_DURATION` from `constants.ts`. -/
def BASE_TOAST_DURATION : ℚ := 2000

/-- Constant `MAX_TOAST_DURATION` from `constants.ts`. -/
def MAX_TOAST_DURATION : ℚ := 10000

/-- Constant `DEFAULT_READING_SPEED` from `constants.ts`. -/
def DEFAULT_READING_SPEED : ℚ := 3

/-- Number of maximal whitespace runs in a character list.  The boolean flag
records whether the previous character was whitespace. -/
def wsRuns : List Char → Bool → Nat
  | [], _ => 0
  | c :: rest, prevWs =>
    if c.isWhitespace then
      (if prevWs then wsRuns rest true else 1 + wsRuns rest true)
    else wsRuns rest false

/-- Length of `text.split(/\s+/)` in JavaScript: one part per maximal
whitespace run, plus one (leading and trailing runs contribute empty parts,
and the empty string yields a single empty part). -/
def splitWhitespaceCount (s : String) : Nat :=
  wsRuns s.toList false + 1

/-- Translation of `ErrorHandler.calculateMessageDuration` (identical to
`calculateToastDuration` in `utils/duration.ts` up to the constants). -/
def calculateMessageDuration (text : String)
    (baseTime : ℚ := BASE_TOAST_DURATION)
    (wordsPerSecond : ℚ := DEFAULT_READING_SPEED) : ℚ :=
  let wordCount : ℚ := (splitWhitespaceCount text : ℚ)
  let readingTime := (wordCount / wordsPerSecond) * 1000
  max baseTime (min readingTime MAX_TOAST_DURATION)

/-- The `DEFAULT_ERROR_MESSAGES` table from `constants.ts`. -/
def DEFAULT_ERROR_MESSAGES : String → Option String
  | "not-found" => some "The requested resource could not be found."
  | "unauthorized" => some "Your session has expired. Please log in again."
  | "forbidden" => some "You do not have permission to access this resource."
  | "bad-request" => some "The request contains invalid data. Please review and try again."
  | "server-error" => some "We are having trouble connecting to the server. Please try again later."
  | "network-error" => some "Unable to connect to the server. Please check your internet connection."
  | "timeout" => some "The request has taken too long. Please try again."
  | "conflict" => some "The request could not be completed due to a conflict with the current state of the resource."
  | "too-many-requests" => some "You have exceeded the allowed number of requests. Please wait a moment before trying again."
  | "unprocessable-entity" => some "The request could not be processed due to invalid data."
  | "cancelled" => some "The request was cancelled."
  | "unknown" => some "An unknown error has occurred. Please try again later."
  | _ => Option.none

/-- The `DEFAULT_ERROR_SEVERITIES` table from `constants.ts`. -/
def DEFAULT_ERROR_SEVERITIES : String → Option Severity
  | "not-found" => some .warning
  | "unauthorized" => some .warning
  | "forbidden" => some .warning
  | "bad-request" => some .warning
  | "server-error" => some .error
  | "network-error" => some .error
  | "timeout" => some .warning
  | "conflict" => some .warning
  | "too-many-requests" => some .warning
  | "unprocessable-entity" => some .warning
  | "cancelled" => some .info
  | "unknown" => some .error
  | _ => Option.none

/-- The `DEFAULT_REPORTABLE_ERRORS` table from `constants.ts`. -/
def DEFAULT_REPORTABLE_ERRORS : String → Option Bool
  | "not-found" => some false
  | "unauthorized" => some false
  | "forbidden" => some false
  | "bad-request" => some false
  | "server-error" => some true
  | "network-error" => some true
  | "timeout" => some true
  | "conflict" => some false
  | "too-many-requests" => some true
  | "unprocessable-entity" => some false
  | "cancelled" => some false
  | "unknown" => some true
  | _ => Option.none

/-- The `DEFAULT_ERROR_CONFIGS` map built in `constants.ts` from the three
tables: each verb gets `{message, severity, reportable}`. -/
def DEFAULT_ERROR_CONFIGS (v : String) : Option ErrorConfig :=
  (DEFAULT_ERROR_MESSAGES v).map (fun m =>
    { message := m
      severity := DEFAULT_ERROR_SEVERITIES v
      reportable := DEFAULT_REPORTABLE_ERRORS v })

/-- Default config stored for the `"unknown"` verb in `constants.ts`; used by
the constructor when no `defaultConfig` option is supplied. -/
def defaultUnknownConfig : ErrorConfig :=
  { message := "An unknown error has occurred. Please try again later."
    severity := some .error
    reportable := some true }

/-- Options accepted by the `ErrorHandler` constructor (`ErrorHandlerOptions`
in `types.ts`), minus the logger callback (modelled externally as the trace). -/
structure ErrorHandlerOptions where
  defaultConfig : Option ErrorConfig := Option.none
  configs : Option (String → Option ErrorConfig) := Option.none
  logLevel : Option LogLevel := Option.none
  logAllErrors : Option Bool := Option.none

/-- Translation of `ErrorHandler.configure`: object spread
`{ ...this.errorConfigs, ...configs }` — each verb key present in the patch
replaces the stored entry wholesale; other keys are untouched. -/
def ErrorHandler.configure {ε : Type} (h : ErrorHandler ε)
    (configs : String → Option ErrorConfig) : ErrorHandler ε :=
  { h with
    errorConfigs := fun v =>
      match configs v with
      | some c => some c
      | Option.none => h.errorConfigs v }

/-- Translation of `ErrorHandler.setDefaultConfig`: replaces `defaultConfig`
and stores a copy of `config` under the `"unknown"` verb. -/
def ErrorHandler.setDefaultConfig {ε : Type} (h : ErrorHandler ε)
    (config : ErrorConfig) : ErrorHandler ε :=
  { h with
    defaultConfig := config
    errorConfigs := fun v => if v = "unknown" then some config else h.errorConfigs v }

/-- Translation of `ErrorHandler.registerAdapter`: appends to the adapter
list. -/
def ErrorHandler.registerAdapter {ε : Type} (h : ErrorHandler ε)
    (adapter : ErrorAdapter ε) : ErrorHandler ε :=
  { h with adapters := h.adapters ++ [adapter] }

/-- Translation of the `ErrorHandler` constructor: built-in defaults for every
verb, then the `"unknown"` entry overridden with the (copied) default config,
then the caller's `configs` patch applied via `configure`; `logLevel` defaults
to `'error'` and `logAllErrors` to `false`. -/
def ErrorHandler.new {ε : Type} (options : ErrorHandlerOptions) : ErrorHandler ε :=
  let defaultConfig := options.defaultConfig.getD defaultUnknownConfig
  let h0 : ErrorHandler ε :=
    { defaultConfig := defaultConfig
      errorConfigs := fun v =>
        if v = "unknown" then some defaultConfig else DEFAULT_ERROR_CONFIGS v
      adapters := []
      logLevel := options.logLevel.getD .error
      logAllErrors := options.logAllErrors.getD false }
  match options.configs with
  | some cfgs => h0.configure cfgs
  | Option.none => h0

/-- Translation of `ErrorHandler.getErrorVerb`: first registered adapter whose
`canHandle` accepts the error wins; otherwise `"unknown"`. -/
def ErrorHandler.getErrorVerb {ε : Type} (h : ErrorHandler ε) (error : ε) : String :=
  match h.adapters.find? (fun adapter => adapter.canHandle error) with
  | some adapter => adapter.getErrorVerb error
  | Option.none => "unknown"

/-- Translation of `ErrorHandler.shouldLogError`: `'none'` is checked first;
otherwise compare the severity level with the configured threshold. -/
def ErrorHandler.shouldLogError {ε : Type} (h : ErrorHandler ε)
    (severity : Option Severity) : Bool :=
  if h.logLevel = LogLevel.none then false
  else
    let actualSeverity := severity.getD .info
    decide (logLevelNum h.logLevel ≤ severityLevels actualSeverity)

/-- Translation of `ErrorHandler.logErrorIfNeeded`.  The gate is
`this.logAllErrors || this.shouldLogError(config.severity || 'error')`; when it
passes, metadata is `{...config.metadata, errorVerb}` merged (`Object.assign`)
with the extraction of the first adapter that both claims the error and has an
`extractMetadata`; the extraction is awaited without a catch, so its rejection
propagates. -/
def ErrorHandler.logErrorIfNeeded {ε : Type} (h : ErrorHandler ε)
    (errorVerb : String) (config : ErrorConfig) (error : ε) :
    Except Unit (List Event) :=
  let shouldLog := h.logAllErrors || h.shouldLogError (some (config.severity.getD .error))
  if shouldLog then
    let metadata : Metadata := (config.metadata.getD []) ++ [("errorVerb", errorVerb)]
    let message := "[" ++ errorVerb ++ "] " ++ config.message
    match h.adapters.find? (fun a => a.canHandle error && a.extractMetadata.isSome) with
    | some adapter =>
      match adapter.extractMetadata with
      | some extract =>
        match extract error with
        | Except.ok adapterMetadata =>
          Except.ok [Event.logCall message (metadata ++ adapterMetadata)]
        | Except.error u => Except.error u
      | Option.none =>
        -- unreachable: the found adapter satisfies `extractMetadata.isSome`
        Except.ok [Event.logCall message metadata]
    | Option.none => Except.ok [Event.logCall message metadata]
  else Except.ok []

/-- Translation of `ErrorHandler.handle`: classify, look up the config (with
`defaultConfig` as the `||` fallback), compute the duration, log if needed
(propagating a metadata-extraction rejection), run the config action, and
return the result.  The instance is returned unchanged (the method body never
writes to `this`). -/
def ErrorHandler.handle {ε : Type} (h : ErrorHandler ε) (error : ε) :
    Except Unit (ErrorResult ε × ErrorHandler ε × List Event) :=
  let errorVerb := h.getErrorVerb error
  let config := (h.errorConfigs errorVerb).getD h.defaultConfig
  let duration := calculateMessageDuration config.message
  match h.logErrorIfNeeded errorVerb config error with
  | Except.error u => Except.error u
  | Except.ok logEvents =>
    let actionEvents :=
      match config.action with
      | some label => [Event.actionCall label]
      | Option.none => []
    Except.ok
      ({ message := config.message
         errorVerb := errorVerb
         config := config
         originalError := error
         duration := duration }, h, logEvents ++ actionEvents)

/-- Translation of the closure returned by
`ErrorHandler.createQueryErrorHandler`: awaits `handle` (a rejection
propagates), then unconditionally calls the logger directly with a name-tagged
message and metadata `{ queryName, ...result.config.metadata }`, then invokes
the optional `onError` callback. -/
def ErrorHandler.createQueryErrorHandler {ε : Type} (h : ErrorHandler ε)
    (queryName : String) (hasOnError : Bool) (error : ε) :
    Except Unit (List Event) :=
  match h.handle error with
  | Except.error u => Except.error u
  | Except.ok (result, _, events) =>
    let directLog := Event.logCall
      ("Error in query [" ++ queryName ++ "]: " ++ result.message)
      (("queryName", queryName) :: (result.config.metadata.getD []))
    let onErrorEvents := if hasOnError then [Event.onErrorCall] else []
    Except.ok (events ++ [directLog] ++ onErrorEvents)

/-- Events emitted by a `handle` call, or `[]` when it rejects (used to state
closed counterexamples). -/
def handleEvents {ε : Type} (h : ErrorHandler ε) (error : ε) : List Event :=
  match h.handle error with
  | Except.ok (_, _, evs) => evs
  | Except.error _ => []

/-- Substring test modelling JavaScript `String.prototype.includes`. -/
def strContains (s pat : String) : Bool :=
  (List.range (s.length + 1)).any
    (fun i => (s.toList.drop i).take pat.length == pat.toList)

/-- The ordered `VERB_TO_STATUS_CODE` table from `constants.ts`; scalar
entries are modelled as singleton lists. -/
def VERB_TO_STATUS_CODE : List (String × List Int) :=
  [("not-found", [404]),
   ("unauthorized", [401]),
   ("forbidden", [403]),
   ("bad-request", [400]),
   ("server-error", [500, 501, 502, 503]),
   ("network-error", [0]),
   ("timeout", [408, 504]),
   ("conflict", [409]),
   ("too-many-requests", [429]),
   ("unprocessable-entity", [422]),
   ("cancelled", [-1])]

/-- The `for (const [verb, codes] of Object.entries(VERB_TO_STATUS_CODE))`
loop shared by both built-in adapters: first entry containing the status
wins. -/
def findVerbForStatus : List (String × List Int) → Int → Option String
  | [], _ => Option.none
  | (verb, codes) :: rest, status =>
    if codes.any (fun c => c == status) then some verb
    else findVerbForStatus rest status

/-- Tail of both adapters' `getErrorVerb` once a non-zero status is in hand:
the table lookup, then the 5xx catch-all, then `'unknown'`. -/
def verbFromStatusTail (status : Int) : String :=
  match findVerbForStatus VERB_TO_STATUS_CODE status with
  | some verb => verb
  | Option.none =>
    if 500 ≤ status ∧ status < 600 then "server-error" else "unknown"

/-- Shape of an Axios error as inspected by `axiosAdapter.getErrorVerb`:
its `code` and `response?.status` fields. -/
structure AxiosErrorInput where
  code : Option String := Option.none
  responseStatus : Option Int := Option.none
deriving DecidableEq, Repr

/-- Translation of `axiosAdapter.getErrorVerb` from `src/adapters/axios.ts`.
JavaScript `!status` is true both when the status is absent and when it is
`0`. -/
def axiosGetErrorVerb (e : AxiosErrorInput) : String :=
  if e.code == some "ECONNABORTED" || e.code == some "ERR_CANCELED" then "cancelled"
  else if e.code == some "ECONNREFUSED" || e.code == some "ERR_NETWORK" then "network-error"
  else
    match e.responseStatus with
    | Option.none => "network-error"
    | some status =>
      if status == 0 then "network-error"
      else verbFromStatusTail status

/-- Shape of a fetch error as inspected by `fetchAdapter.getErrorVerb`:
either a `Response` (carrying a numeric status) or an `Error` object with a
name, a message, and an optional numeric `status` field. -/
inductive FetchErrorInput where
  | response (status : Int)
  | errorObj (name : String) (message : String) (status : Option Int)
deriving DecidableEq, Repr

/-- Translation of `fetchAdapter.getErrorVerb` (fetch adapter source).  For a
`Response` the `instanceof Error` guards are false, so only the status path
applies; for an `Error` object the abort-name check, then the
network/connection/offline message check, then the status path apply. -/
def fetchGetErrorVerb : FetchErrorInput → String
  | .response status =>
    if status == 0 then "network-error"
    else verbFromStatusTail status
  | .errorObj name message status =>
    if name == "AbortError" then "cancelled"
    else if strContains message "network" || strContains message "connection"
        || strContains message "offline" then "network-error"
    else
      match status with
      | Option.none => "network-error"
      | some s =>
        if s == 0 then "network-error"
        else verbFromStatusTail s

/-- Status-to-verb mapping exactly as the claim states it: the fixed table,
with every status outside the table mapped to `"unknown"`. -/
def claimStatusVerb (s : Int) : String :=
  if s = 404 then "not-found"
  else if s = 401 then "unauthorized"
  else if s = 403 then "forbidden"
  else if s = 400 then "bad-request"
  else if s = 500 ∨ s = 501 ∨ s = 502 ∨ s = 503 then "server-error"
  else if s = 408 ∨ s = 504 then "timeout"
  else if s = 409 then "conflict"
  else if s = 429 then "too-many-requests"
  else if s = 422 then "unprocessable-entity"
  else "unknown"

/-- Status-to-verb mapping as amended: identical to `claimStatusVerb` except
that a 5xx status not otherwise mapped yields `"server-error"` instead of
`"unknown"`. -/
def amendedStatusVerb (s : Int) : String :=
  if s = 404 then "not-found"
  else if s = 401 then "unauthorized"
  else if s = 403 then "forbidden"
  else if s = 400 then "bad-request"
  else if s = 500 ∨ s = 501 ∨ s = 502 ∨ s = 503 then "server-error"
  else if s = 408 ∨ s = 504 then "timeout"
  else if s = 409 then "conflict"
  else if s = 429 then "too-many-requests"
  else if s = 422 then "unprocessable-entity"
  else if 500 ≤ s ∧ s < 600 then "server-error"
  else "unknown"

/-- Result of a `handle` call, with a dummy fallback for the rejection case
(used only to state closed witnesses about concrete, non-rejecting calls). -/
def handleResult {ε : Type} [Inhabited ε] (h : ErrorHandler ε) (e : ε) : ErrorResult ε :=
  match h.handle e with
  | Except.ok (res, _, _) => res
  | Except.error _ =>
    { message := "", errorVerb := "", config := { message := "" },
      originalError := default, duration := 0 }

/-- Post-state of a `handle` call, with the input state as fallback for the
rejection case. -/
def handleState {ε : Type} (h : ErrorHandler ε) (e : ε) : ErrorHandler ε :=
  match h.handle e with
  | Except.ok (_, h2, _) => h2
  | Except.error _ => h

/-- Events emitted by an invocation of the query error handler closure, or
`[]` when it rejects. -/
def queryEvents {ε : Type} (h : ErrorHandler ε) (q : String) (hasOnError : Bool)
    (e : ε) : List Event :=
  match h.createQueryErrorHandler q hasOnError e with
  | Except.ok evs => evs
  | Except.error _ => []

/-- The direct logger call made by the query error handler closure for a given
query name and `handle` result. -/
def directQueryLog {ε : Type} (q : String) (res : ErrorResult ε) : Event :=
  Event.logCall ("Error in query [" ++ q ++ "]: " ++ res.message)
    (("queryName", q) :: (res.config.metadata.getD []))

/-- Orchestrator with entirely default options, over a trivial error type. -/
def defaultHandlerU : ErrorHandler Unit := ErrorHandler.new {}

/-- Orchestrator configured with `logLevel: 'none'` and `logAllErrors: true`. -/
def c1Handler : ErrorHandler Unit :=
  ErrorHandler.new { logLevel := some LogLevel.none, logAllErrors := some true }

/-- Orchestrator configured with `logLevel: 'none'` (and `logAllErrors` left
at its default `false`). -/
def c1WitnessHandler : ErrorHandler Unit :=
  ErrorHandler.new { logLevel := some LogLevel.none }

/-- An adapter claiming only the error `1`. -/
def c2AdapterA : ErrorAdapter Nat :=
  { name := "A"
    canHandle := fun n => n == 1
    getErrorVerb := fun _ => "timeout" }

/-- An adapter claiming every error. -/
def c2AdapterB : ErrorAdapter Nat :=
  { name := "B"
    canHandle := fun _ => true
    getErrorVerb := fun _ => "conflict" }

/-- Orchestrator with the two adapters registered in order A, B. -/
def c2Handler : ErrorHandler Nat :=
  ((ErrorHandler.new {}).registerAdapter c2AdapterA).registerAdapter c2AdapterB

/-- An adapter that claims every error and whose `extractMetadata` rejects. -/
def c3Adapter : ErrorAdapter Unit :=
  { name := "ThrowingMetadataAdapter"
    canHandle := fun _ => true
    getErrorVerb := fun _ => "unknown"
    extractMetadata := some (fun _ => Except.error ()) }

/-- Default-option orchestrator with the rejecting-metadata adapter. -/
def c3Handler : ErrorHandler Unit :=
  (ErrorHandler.new {}).registerAdapter c3Adapter

/-- A custom config installed for the `"timeout"` verb. -/
def c4Config : ErrorConfig :=
  { message := "Custom timeout message", severity := some .warning }

/-- A single-verb patch for `configure`. -/
def c4Patch : String → Option ErrorConfig :=
  fun v => if v = "timeout" then some c4Config else Option.none

/-- An adapter classifying every error as `"timeout"`. -/
def c4Adapter : ErrorAdapter Unit :=
  { name := "T"
    canHandle := fun _ => true
    getErrorVerb := fun _ => "timeout" }

/-- Default-option orchestrator with the `"timeout"` adapter. -/
def c4Handler : ErrorHandler Unit :=
  (ErrorHandler.new {}).registerAdapter c4Adapter

/-- A replacement default config. -/
def c5Config : ErrorConfig := { message := "Fallback message" }

/-- A thirty-word text (so the duration heuristic hits its ceiling). -/
def c8ThirtyWords : String :=
  "w w w w w w w w w w w w w w w w w w w w w w w w w w w w w w"

theorem countLogCalls_append (l1 l2 : List Event) :
    countLogCalls (l1 ++ l2) = countLogCalls l1 + countLogCalls l2 := by
  simp [countLogCalls, List.filter_append]

theorem countLogCalls_actionEvents (c : Option String) :
    countLogCalls
      (match c with
        | some label => [Event.actionCall label]
        | Option.none => []) = 0 := by
  cases c <;> simp [countLogCalls]

theorem countLogCalls_singleton (msg : String) (m : Metadata) :
    countLogCalls [Event.logCall msg m] = 1 := by
  simp [countLogCalls]

/-- A list's first element satisfying a predicate, located by its index, is
what `find?` returns. -/
theorem find?_eq_get_of_first {α : Type} (p : α → Bool) :
    ∀ (l : List α) (i : Nat) (hi : i < l.length),
      p (l.get ⟨i, hi⟩) = true →
      (∀ j (hj : j < i), p (l.get ⟨j, Nat.lt_trans hj hi⟩) = false) →
      l.find? p = some (l.get ⟨i, hi⟩)
  | [], i, hi, _, _ => absurd hi (by simp)
  | a :: l, 0, _, hpa, _ => List.find?_cons_of_pos l hpa
  | a :: l, i + 1, hi, hpi, hprev => by
    have hpa : p a = false := hprev 0 (Nat.succ_pos i)
    rw [List.find?_cons_of_neg l (by simp [hpa])]
    exact find?_eq_get_of_first p l i (Nat.lt_of_succ_lt_succ hi) hpi
      (fun j hj => hprev (j + 1) (Nat.succ_lt_succ hj))

theorem getErrorVerb_of_no_match {ε : Type} (h : ErrorHandler ε) (e : ε)
    (hnone : ∀ a ∈ h.adapters, a.canHandle e = false) :
    h.getErrorVerb e = "unknown" := by
  unfold ErrorHandler.getErrorVerb
  rw [List.find?_eq_none.mpr (fun a ha => by simp [hnone a ha])]

theorem getErrorVerb_of_first {ε : Type} (h : ErrorHandler ε) (e : ε) (i : Nat)
    (hi : i < h.adapters.length)
    (hcan : (h.adapters.get ⟨i, hi⟩).canHandle e = true)
    (hprev : ∀ j (hj : j < i), (h.adapters.get ⟨j, Nat.lt_trans hj hi⟩).canHandle e = false) :
    h.getErrorVerb e = (h.adapters.get ⟨i, hi⟩).getErrorVerb e := by
  unfold ErrorHandler.getErrorVerb
  rw [find?_eq_get_of_first (fun a => a.canHandle e) h.adapters i hi hcan hprev]

theorem logErrorIfNeeded_of_gate_closed {ε : Type} (h : ErrorHandler ε)
    (v : String) (c : ErrorConfig) (e : ε)
    (hla : h.logAllErrors = false) (hll : h.logLevel = LogLevel.none) :
    h.logErrorIfNeeded v c e = Except.ok [] := by
  simp [ErrorHandler.logErrorIfNeeded, ErrorHandler.shouldLogError, hla, hll]

theorem logErrorIfNeeded_ok_of_no_match {ε : Type} (h : ErrorHandler ε)
    (v : String) (c : ErrorConfig) (e : ε)
    (hnone : ∀ a ∈ h.adapters, a.canHandle e = false) :
    ∃ evs, h.logErrorIfNeeded v c e = Except.ok evs := by
  have hf : h.adapters.find? (fun a => a.canHandle e && a.extractMetadata.isSome)
      = Option.none :=
    List.find?_eq_none.mpr (fun a ha => by simp [hnone a ha])
  cases hg : (h.logAllErrors || h.shouldLogError (some (c.severity.getD .error)))
  · exact ⟨[], by simp [ErrorHandler.logErrorIfNeeded, hg]⟩
  · exact ⟨[Event.logCall ("[" ++ v ++ "] " ++ c.message)
      ((c.metadata.getD []) ++ [("errorVerb", v)])],
      by simp [ErrorHandler.logErrorIfNeeded, hg, hf]⟩

theorem logErrorIfNeeded_ok_count {ε : Type} (h : ErrorHandler ε)
    (v : String) (c : ErrorConfig) (e : ε) (l : List Event)
    (hml : h.logErrorIfNeeded v c e = Except.ok l) :
    countLogCalls l =
      (if (h.logAllErrors || h.shouldLogError (some (c.severity.getD .error)))
        then 1 else 0) := by
  unfold ErrorHandler.logErrorIfNeeded at hml
  cases hg : (h.logAllErrors || h.shouldLogError (some (c.severity.getD .error)))
  · rw [hg] at hml
    simp at hml
    subst hml
    simp [countLogCalls]
  · rw [hg] at hml
    cases hf : h.adapters.find? (fun a => a.canHandle e && a.extractMetadata.isSome) with
    | none =>
      rw [hf] at hml
      simp at hml
      subst hml
      simp [countLogCalls]
    | some adapter =>
      rw [hf] at hml
      dsimp only at hml
      cases hex : adapter.extractMetadata with
      | none =>
        rw [hex] at hml
        simp at hml
        subst hml
        simp [countLogCalls]
      | some extract =>
        rw [hex] at hml
        dsimp only at hml
        cases hfe : extract e with
        | ok am =>
          rw [hfe] at hml
          simp at hml
          subst hml
          simp [countLogCalls]
        | error u =>
          rw [hfe] at hml
          simp at hml

/-- Inversion of a successful `handle` call: the result's fields, the
unchanged instance, and the trace's decomposition into the logging events and
the action event. -/
theorem handle_ok_spec {ε : Type} (h : ErrorHandler ε) (e : ε)
    (res : ErrorResult ε) (h2 : ErrorHandler ε) (evs : List Event)
    (heq : h.handle e = Except.ok (res, h2, evs)) :
    res.errorVerb = h.getErrorVerb e ∧
    res.config = (h.errorConfigs (h.getErrorVerb e)).getD h.defaultConfig ∧
    res.message = res.config.message ∧
    res.originalError = e ∧
    res.duration = calculateMessageDuration res.config.message ∧
    h2 = h ∧
    ∃ logEvents,
      h.logErrorIfNeeded (h.getErrorVerb e)
        ((h.errorConfigs (h.getErrorVerb e)).getD h.defaultConfig) e
        = Except.ok logEvents ∧
      evs = logEvents ++
        (match ((h.errorConfigs (h.getErrorVerb e)).getD h.defaultConfig).action with
          | some label => [Event.actionCall label]
          | Option.none => []) := by
  simp only [ErrorHandler.handle] at heq
  cases hml : h.logErrorIfNeeded (h.getErrorVerb e)
      ((h.errorConfigs (h.getErrorVerb e)).getD h.defaultConfig) e with
  | error u =>
    rw [hml] at heq
    simp at heq
  | ok logEvents =>
    rw [hml] at heq
    simp only [Except.ok.injEq, Prod.mk.injEq] at heq
    obtain ⟨hres, hh2, hevs⟩ := heq
    subst hres
    subst hh2
    subst hevs
    exact ⟨rfl, rfl, rfl, rfl, rfl, rfl, logEvents, rfl, rfl⟩

/-- Forward form of `handle` for a successful `logErrorIfNeeded`. -/
theorem handle_eq_of_logErrorIfNeeded_ok {ε : Type} (h : ErrorHandler ε) (e : ε)
    (l : List Event)
    (hml : h.logErrorIfNeeded (h.getErrorVerb e)
      ((h.errorConfigs (h.getErrorVerb e)).getD h.defaultConfig) e = Except.ok l) :
    h.handle e = Except.ok
      ({ message := ((h.errorConfigs (h.getErrorVerb e)).getD h.defaultConfig).message
         errorVerb := h.getErrorVerb e
         config := (h.errorConfigs (h.getErrorVerb e)).getD h.defaultConfig
         originalError := e
         duration := calculateMessageDuration
           ((h.errorConfigs (h.getErrorVerb e)).getD h.defaultConfig).message }, h,
       l ++ (match ((h.errorConfigs (h.getErrorVerb e)).getD h.defaultConfig).action with
         | some label => [Event.actionCall label]
         | Option.none => [])) := by
  simp only [ErrorHandler.handle]
  rw [hml]

/-- The trace of a successful `handle` contains exactly one logger call when
the logging gate passes and none otherwise. -/
theorem handle_ok_countLog {ε : Type} (h : ErrorHandler ε) (e : ε)
    (res : ErrorResult ε) (h2 : ErrorHandler ε) (evs : List Event)
    (heq : h.handle e = Except.ok (res, h2, evs)) :
    countLogCalls evs =
      (if (h.logAllErrors || h.shouldLogError (some (res.config.severity.getD .error)))
        then 1 else 0) := by
  obtain ⟨-, hcfg, -, -, -, -, logEvents, hml, hevs⟩ :=
    handle_ok_spec h e res h2 evs heq
  subst hevs
  rw [countLogCalls_append, countLogCalls_actionEvents,
    logErrorIfNeeded_ok_count h _ _ e logEvents hml, hcfg]
  simp

/-- Lookup after consing a binding of the same key: an inner binding of the
key shadows it, otherwise the consed value is found. -/
theorem lookupLast_cons_self (k v : String) (m : Metadata) :
    lookupLast ((k, v) :: m) k =
      (match lookupLast m k with
        | some x => some x
        | Option.none => some v) := by
  unfold lookupLast
  rw [List.reverse_cons, List.find?_append]
  cases hf : m.reverse.find? (fun p => p.1 == k) with
  | none => simp [hf]
  | some p => simp [hf]

/-- The shared table-plus-5xx tail of both adapters agrees with the amended
status mapping on every positive status code. -/
theorem verbFromStatusTail_eq_amended (s : Int) (hs : 0 < s) :
    verbFromStatusTail s = amendedStatusVerb s := by
  by_cases h1 : s = 404
  · subst h1; decide
  by_cases h2 : s = 401
  · subst h2; decide
  by_cases h3 : s = 403
  · subst h3; decide
  by_cases h4 : s = 400
  · subst h4; decide
  by_cases h5 : s = 500
  · subst h5; decide
  by_cases h6 : s = 501
  · subst h6; decide
  by_cases h7 : s = 502
  · subst h7; decide
  by_cases h8 : s = 503
  · subst h8; decide
  by_cases h9 : s = 408
  · subst h9; decide
  by_cases h10 : s = 504
  · subst h10; decide
  by_cases h11 : s = 409
  · subst h11; decide
  by_cases h12 : s = 429
  · subst h12; decide
  by_cases h13 : s = 422
  · subst h13; decide
  have k1 : ¬((404 : Int) = s) := fun hx => h1 hx.symm
  have k2 : ¬((401 : Int) = s) := fun hx => h2 hx.symm
  have k3 : ¬((403 : Int) = s) := fun hx => h3 hx.symm
  have k4 : ¬((400 : Int) = s) := fun hx => h4 hx.symm
  have k5 : ¬((500 : Int) = s) := fun hx => h5 hx.symm
  have k6 : ¬((501 : Int) = s) := fun hx => h6 hx.symm
  have k7 : ¬((502 : Int) = s) := fun hx => h7 hx.symm
  have k8 : ¬((503 : Int) = s) := fun hx => h8 hx.symm
  have k9 : ¬((408 : Int) = s) := fun hx => h9 hx.symm
  have k10 : ¬((504 : Int) = s) := fun hx => h10 hx.symm
  have k11 : ¬((409 : Int) = s) := fun hx => h11 hx.symm
  have k12 : ¬((429 : Int) = s) := fun hx => h12 hx.symm
  have k13 : ¬((422 : Int) = s) := fun hx => h13 hx.symm
  have k0 : ¬((0 : Int) = s) := by omega
  have km : ¬((-1 : Int) = s) := by omega
  have hn : findVerbForStatus VERB_TO_STATUS_CODE s = Option.none := by
    simp [findVerbForStatus, VERB_TO_STATUS_CODE,
      k1, k2, k3, k4, k5, k6, k7, k8, k9, k10, k11, k12, k13, k0, km]
  unfold verbFromStatusTail
  rw [hn]
  show (if 500 ≤ s ∧ s < 600 then "server-error" else "unknown") = amendedStatusVerb s
  simp [amendedStatusVerb, h1, h2, h3, h4, h5, h6, h7, h8, h9, h10, h11, h12, h13]

/-- Claim C1 (counterexample): with `logLevel = 'none'` but
`logAllErrors = true`, `handle` does invoke the logger — the code checks
`this.logAllErrors ||` before `shouldLogError`, so `'none'` does not
short-circuit first as the claim states. -/
theorem aegis_c1_counterexample :
    c1Handler.logLevel = LogLevel.none ∧
    c1Handler.logAllErrors = true ∧
    countLogCalls (handleEvents c1Handler ()) = 1 :=
  ⟨rfl, rfl, rfl⟩

/-- Claim C1 (amended): with `logLevel = 'none'` and `logAllErrors = false`,
a `handle` call completes and performs no logger invocation, regardless of the
config's severity. -/
theorem aegis_c1_none_no_log {ε : Type} (h : ErrorHandler ε) (e : ε)
    (hll : h.logLevel = LogLevel.none) (hla : h.logAllErrors = false) :
    ∃ res evs, h.handle e = Except.ok (res, h, evs) ∧ countLogCalls evs = 0 := by
  have hml := logErrorIfNeeded_of_gate_closed h (h.getErrorVerb e)
    ((h.errorConfigs (h.getErrorVerb e)).getD h.defaultConfig) e hla hll
  refine ⟨_, _, handle_eq_of_logErrorIfNeeded_ok h e [] hml, ?_⟩
  rw [countLogCalls_append, countLogCalls_actionEvents]
  rfl

/-- Claim C1 (witness): the amended statement at a concrete orchestrator with
`logLevel = 'none'` and default `logAllErrors`. -/
theorem aegis_c1_none_no_log_witness :
    ∃ res evs, c1WitnessHandler.handle () = Except.ok (res, c1WitnessHandler, evs) ∧
      countLogCalls evs = 0 :=
  aegis_c1_none_no_log c1WitnessHandler () rfl rfl

/-- Claim C2: for a successful `handle` call, the result's `errorVerb` is the
verdict of the first registered adapter whose `canHandle` accepts the error,
and `"unknown"` when no registered adapter accepts it. -/
theorem aegis_c2_first_match {ε : Type} (h : ErrorHandler ε) (e : ε)
    (res : ErrorResult ε) (h2 : ErrorHandler ε) (evs : List Event)
    (heq : h.handle e = Except.ok (res, h2, evs)) :
    ((∀ a ∈ h.adapters, a.canHandle e = false) → res.errorVerb = "unknown") ∧
    (∀ i (hi : i < h.adapters.length),
      (h.adapters.get ⟨i, hi⟩).canHandle e = true →
      (∀ j (hj : j < i), (h.adapters.get ⟨j, Nat.lt_trans hj hi⟩).canHandle e = false) →
      res.errorVerb = (h.adapters.get ⟨i, hi⟩).getErrorVerb e) := by
  obtain ⟨hverb, -⟩ := handle_ok_spec h e res h2 evs heq
  constructor
  · intro hnone
    rw [hverb, getErrorVerb_of_no_match h e hnone]
  · intro i hi hcan hprev
    rw [hverb, getErrorVerb_of_first h e i hi hcan hprev]

/-- Claim C2 (witness): with adapters A (claims only the error `1`) and B
(claims everything) registered in that order, handling the error `2` uses B's
verdict. -/
theorem aegis_c2_first_match_witness :
    (handleResult c2Handler 2).errorVerb = "conflict" := by
  have t := aegis_c2_first_match c2Handler 2 (handleResult c2Handler 2)
    (handleState c2Handler 2) (handleEvents c2Handler 2) rfl
  have hB := t.2 1 (by decide) (by decide) (fun j hj => by
    interval_cases j
    rfl)
  exact hB.trans rfl

/-- Claim C3 (code behaviour at the failing input): when the matching
adapter's `extractMetadata` rejects (and the logging gate passes), the
rejection is not caught — `handle` itself rejects, so no logger call, no
action, and no `Result` are produced, contradicting the claim that the
failure degrades to omitted metadata. -/
theorem aegis_c3_metadata_throw_rejects :
    c3Handler.handle () = Except.error () := rfl

/-- Claim C4: `configure` replaces the stored config wholesale for every verb
key present in the patch, leaves other verbs' configs unchanged, makes a
subsequent `handle` classified to a patched verb return exactly the patched
message and config, and the empty patch is the identity. -/
theorem aegis_c4_configure {ε : Type} (h : ErrorHandler ε)
    (patch : String → Option ErrorConfig) (V : String) (C : ErrorConfig) :
    (patch V = some C → (h.configure patch).errorConfigs V = some C) ∧
    (∀ W, patch W = Option.none →
      (h.configure patch).errorConfigs W = h.errorConfigs W) ∧
    (∀ (e : ε) res h2 evs, patch V = some C →
      (h.configure patch).handle e = Except.ok (res, h2, evs) →
      res.errorVerb = V →
      res.message = C.message ∧ res.config = C) ∧
    h.configure (fun _ => Option.none) = h := by
  refine ⟨?_, ?_, ?_, ?_⟩
  · intro hp
    simp [ErrorHandler.configure, hp]
  · intro W hp
    simp [ErrorHandler.configure, hp]
  · intro e res h2 evs hp heq hv
    obtain ⟨hverb, hcfg, hmsg, -⟩ := handle_ok_spec _ e res h2 evs heq
    rw [hverb] at hv
    have hc : res.config = C := by
      rw [hcfg, hv]
      simp [ErrorHandler.configure, hp]
    exact ⟨by rw [hmsg, hc], hc⟩
  · rfl

/-- Claim C4 (witness): patching the `"timeout"` verb on a concrete
orchestrator stores exactly the patched config, a subsequent `handle` on an
error classified as `"timeout"` returns the patched message, and the empty
patch changes nothing. -/
theorem aegis_c4_configure_witness :
    (c4Handler.configure c4Patch).errorConfigs "timeout" = some c4Config ∧
    (handleResult (c4Handler.configure c4Patch) ()).message = "Custom timeout message" ∧
    c4Handler.configure (fun _ => Option.none) = c4Handler := by
  have t := aegis_c4_configure c4Handler c4Patch "timeout" c4Config
  refine ⟨t.1 rfl, ?_, t.2.2.2⟩
  exact (t.2.2.1 () (handleResult (c4Handler.configure c4Patch) ())
    (handleState (c4Handler.configure c4Patch) ())
    (handleEvents (c4Handler.configure c4Patch) ()) rfl rfl rfl).1

/-- Claim C5: after `setDefaultConfig C`, handling an error that no adapter
claims completes with message `C.message`, and the stored config for the
`"unknown"` verb equals `C`. -/
theorem aegis_c5_setDefaultConfig {ε : Type} (h : ErrorHandler ε)
    (C : ErrorConfig) (e : ε)
    (hnone : ∀ a ∈ h.adapters, a.canHandle e = false) :
    (∃ evs, (h.setDefaultConfig C).handle e = Except.ok
      ({ message := C.message
         errorVerb := "unknown"
         config := C
         originalError := e
         duration := calculateMessageDuration C.message }, h.setDefaultConfig C, evs)) ∧
    (h.setDefaultConfig C).errorConfigs "unknown" = some C := by
  have hverb : (h.setDefaultConfig C).getErrorVerb e = "unknown" :=
    getErrorVerb_of_no_match _ e hnone
  have hcfg : ((h.setDefaultConfig C).errorConfigs
      ((h.setDefaultConfig C).getErrorVerb e)).getD (h.setDefaultConfig C).defaultConfig = C := by
    rw [hverb]
    simp [ErrorHandler.setDefaultConfig]
  obtain ⟨l, hl⟩ := logErrorIfNeeded_ok_of_no_match (h.setDefaultConfig C)
    ((h.setDefaultConfig C).getErrorVerb e)
    (((h.setDefaultConfig C).errorConfigs
      ((h.setDefaultConfig C).getErrorVerb e)).getD (h.setDefaultConfig C).defaultConfig) e hnone
  have ht := handle_eq_of_logErrorIfNeeded_ok (h.setDefaultConfig C) e l hl
  rw [hcfg, hverb] at ht
  exact ⟨⟨_, ht⟩, by simp [ErrorHandler.setDefaultConfig]⟩

/-- Claim C5 (witness): the statement at a concrete default orchestrator and
a concrete replacement config. -/
theorem aegis_c5_setDefaultConfig_witness :
    ((defaultHandlerU.setDefaultConfig c5Config).errorConfigs "unknown" = some c5Config) ∧
    (handleResult (defaultHandlerU.setDefaultConfig c5Config) ()).message = "Fallback message" := by
  have t := aegis_c5_setDefaultConfig defaultHandlerU c5Config ()
    (fun a ha => absurd ha (List.not_mem_nil a))
  refine ⟨t.2, ?_⟩
  obtain ⟨evs, he⟩ := t.1
  unfold handleResult
  rw [he]
  rfl

/-- Claim C6: for any input that no registered adapter claims, `handle` never
rejects: it classifies the input to `"unknown"` and returns a fully-populated
result (message, verb, config, original error, duration), using the stored
`"unknown"` config's message when one is stored; in particular this covers an
orchestrator with no adapters registered at all. -/
theorem aegis_c6_total_fallback {ε : Type} (h : ErrorHandler ε) (e : ε)
    (hnone : ∀ a ∈ h.adapters, a.canHandle e = false) :
    (∃ evs, h.handle e = Except.ok
      ({ message := ((h.errorConfigs "unknown").getD h.defaultConfig).message
         errorVerb := "unknown"
         config := (h.errorConfigs "unknown").getD h.defaultConfig
         originalError := e
         duration := calculateMessageDuration
           ((h.errorConfigs "unknown").getD h.defaultConfig).message }, h, evs)) ∧
    (∀ c, h.errorConfigs "unknown" = some c →
      ((h.errorConfigs "unknown").getD h.defaultConfig).message = c.message) := by
  have hverb : h.getErrorVerb e = "unknown" := getErrorVerb_of_no_match h e hnone
  obtain ⟨l, hl⟩ := logErrorIfNeeded_ok_of_no_match h (h.getErrorVerb e)
    ((h.errorConfigs (h.getErrorVerb e)).getD h.defaultConfig) e hnone
  have ht := handle_eq_of_logErrorIfNeeded_ok h e l hl
  rw [hverb] at ht
  refine ⟨⟨_, ht⟩, ?_⟩
  intro c hc
  rw [hc]
  rfl

/-- Claim C6 (witness): a default orchestrator with no adapters handles the
trivial input, classifying it to `"unknown"` with the stored `"unknown"`
config's message. -/
theorem aegis_c6_total_fallback_witness :
    (handleResult defaultHandlerU ()).errorVerb = "unknown" ∧
    (handleResult defaultHandlerU ()).message =
      "An unknown error has occurred. Please try again later." := by
  have t := aegis_c6_total_fallback defaultHandlerU ()
    (fun a ha => absurd ha (List.not_mem_nil a))
  obtain ⟨evs, he⟩ := t.1
  unfold handleResult
  rw [he]
  exact ⟨rfl, rfl⟩

/-- Claim C7 (counterexample): status 505 is outside the claimed fixed table,
so the claim maps it to `"unknown"`, but both built-in adapters map it to
`"server-error"` through the 5xx catch-all that follows the table lookup. -/
theorem aegis_c7_counterexample :
    axiosGetErrorVerb { code := Option.none, responseStatus := some 505 } = "server-error" ∧
    fetchGetErrorVerb (.response 505) = "server-error" ∧
    claimStatusVerb 505 = "unknown" ∧
    ("server-error" : String) ≠ "unknown" := by
  refine ⟨rfl, rfl, rfl, ?_⟩
  decide

/-- Claim C7 (amended): for every positive status code both built-in
adapters follow the fixed table amended with a 5xx catch-all (any unlisted
500–599 status maps to `"server-error"`, everything else unlisted to
`"unknown"`); absence of a status code maps to `"network-error"`, and the
dedicated cancellation signals (`ECONNABORTED`/`ERR_CANCELED` codes for
Axios, the `AbortError` name for fetch) map to `"cancelled"`. -/
theorem aegis_c7_status_mapping (s : Int) (st : Option Int) (nm msg : String)
    (hs : 0 < s)
    (hnm : nm ≠ "AbortError")
    (hm1 : strContains msg "network" = false)
    (hm2 : strContains msg "connection" = false)
    (hm3 : strContains msg "offline" = false) :
    axiosGetErrorVerb { code := Option.none, responseStatus := some s } = amendedStatusVerb s ∧
    fetchGetErrorVerb (.errorObj nm msg (some s)) = amendedStatusVerb s ∧
    fetchGetErrorVerb (.response s) = amendedStatusVerb s ∧
    axiosGetErrorVerb { code := Option.none, responseStatus := Option.none } = "network-error" ∧
    fetchGetErrorVerb (.errorObj nm msg Option.none) = "network-error" ∧
    axiosGetErrorVerb { code := some "ERR_CANCELED", responseStatus := st } = "cancelled" ∧
    axiosGetErrorVerb { code := some "ECONNABORTED", responseStatus := st } = "cancelled" ∧
    fetchGetErrorVerb (.errorObj "AbortError" msg st) = "cancelled" := by
  have hs0 : ¬(s = 0) := by omega
  refine ⟨?_, ?_, ?_, rfl, ?_, rfl, rfl, rfl⟩
  · simp only [axiosGetErrorVerb]
    rw [if_neg (by simp), if_neg (by simp)]
    simp only [hs0, beq_iff_eq, if_false, ite_false]
    exact verbFromStatusTail_eq_amended s hs
  · simp only [fetchGetErrorVerb]
    rw [if_neg (by simp [hnm]), if_neg (by simp [hm1, hm2, hm3])]
    simp only [hs0, beq_iff_eq, if_false, ite_false]
    exact verbFromStatusTail_eq_amended s hs
  · simp only [fetchGetErrorVerb]
    simp only [hs0, beq_iff_eq, if_false, ite_false]
    exact verbFromStatusTail_eq_amended s hs
  · simp only [fetchGetErrorVerb]
    rw [if_neg (by simp [hnm]), if_neg (by simp [hm1, hm2, hm3])]

/-- Claim C7 (witness): the amended mapping at status 404 with a
non-cancellation, non-network error shape. -/
theorem aegis_c7_status_mapping_witness :
    axiosGetErrorVerb { code := Option.none, responseStatus := some 404 } = amendedStatusVerb 404 ∧
    fetchGetErrorVerb (.response 404) = amendedStatusVerb 404 :=
  ⟨(aegis_c7_status_mapping 404 Option.none "X" "boom" (by norm_num) (by decide)
      (by decide) (by decide) (by decide)).1,
   (aegis_c7_status_mapping 404 Option.none "X" "boom" (by norm_num) (by decide)
      (by decide) (by decide) (by decide)).2.2.1⟩

/-- Claim C8: with the default parameters, the message-duration heuristic
gives 2000 for "Error occurred" and for the empty string, 10000 for any text
whose `split(/\s+/)` word count is at least 30, equals
`max(2000, min(wordCount / 3 * 1000, 10000))` for every text, and always lies
between 2000 and 10000 inclusive. -/
theorem aegis_c8_duration :
    calculateMessageDuration "Error occurred" = 2000 ∧
    calculateMessageDuration "" = 2000 ∧
    (∀ t, 30 ≤ splitWhitespaceCount t → calculateMessageDuration t = 10000) ∧
    (∀ t, calculateMessageDuration t =
      max 2000 (min ((splitWhitespaceCount t : ℚ) / 3 * 1000) 10000)) ∧
    (∀ t, 2000 ≤ calculateMessageDuration t ∧ calculateMessageDuration t ≤ 10000) := by
  have hc1 : splitWhitespaceCount "Error occurred" = 2 := by decide
  have hc2 : splitWhitespaceCount "" = 1 := by decide
  refine ⟨?_, ?_, ?_, fun t => rfl, ?_⟩
  · show max BASE_TOAST_DURATION
      (min ((splitWhitespaceCount "Error occurred" : ℚ) / DEFAULT_READING_SPEED * 1000)
        MAX_TOAST_DURATION) = 2000
    rw [hc1]
    norm_num [BASE_TOAST_DURATION, MAX_TOAST_DURATION, DEFAULT_READING_SPEED,
      min_def, max_def]
  · show max BASE_TOAST_DURATION
      (min ((splitWhitespaceCount "" : ℚ) / DEFAULT_READING_SPEED * 1000)
        MAX_TOAST_DURATION) = 2000
    rw [hc2]
    norm_num [BASE_TOAST_DURATION, MAX_TOAST_DURATION, DEFAULT_READING_SPEED,
      min_def, max_def]
  · intro t ht
    have hwc : (30 : ℚ) ≤ (splitWhitespaceCount t : ℚ) := by exact_mod_cast ht
    show max BASE_TOAST_DURATION
      (min ((splitWhitespaceCount t : ℚ) / DEFAULT_READING_SPEED * 1000)
        MAX_TOAST_DURATION) = 10000
    have h1 : MAX_TOAST_DURATION ≤ (splitWhitespaceCount t : ℚ) / DEFAULT_READING_SPEED * 1000 := by
      unfold MAX_TOAST_DURATION DEFAULT_READING_SPEED
      linarith
    rw [min_eq_right h1,
      max_eq_right (by norm_num [BASE_TOAST_DURATION, MAX_TOAST_DURATION])]
    norm_num [MAX_TOAST_DURATION]
  · intro t
    constructor
    · show BASE_TOAST_DURATION ≤ max BASE_TOAST_DURATION
        (min ((splitWhitespaceCount t : ℚ) / DEFAULT_READING_SPEED * 1000)
          MAX_TOAST_DURATION)
      exact le_max_left _ _
    · show max BASE_TOAST_DURATION
        (min ((splitWhitespaceCount t : ℚ) / DEFAULT_READING_SPEED * 1000)
          MAX_TOAST_DURATION) ≤ 10000
      exact max_le (by norm_num [BASE_TOAST_DURATION])
        ((min_le_right _ _).trans (by norm_num [MAX_TOAST_DURATION]))

/-- Claim C8 (witness): the ceiling case at a concrete thirty-word text and
the floor bound at a concrete one-word text. -/
theorem aegis_c8_duration_witness :
    calculateMessageDuration c8ThirtyWords = 10000 ∧
    2000 ≤ calculateMessageDuration "x" :=
  ⟨aegis_c8_duration.2.2.1 c8ThirtyWords (by decide),
   (aegis_c8_duration.2.2.2.2 "x").1⟩

/-- Claim C9: a successful `handle` call returns the orchestrator instance
unchanged — `defaultConfig`, `errorConfigs`, the adapter list, `logLevel` and
`logAllErrors` are all identical before and after the call. -/
theorem aegis_c9_handle_frame {ε : Type} (h : ErrorHandler ε) (e : ε)
    (res : ErrorResult ε) (h2 : ErrorHandler ε) (evs : List Event)
    (heq : h.handle e = Except.ok (res, h2, evs)) : h2 = h :=
  (handle_ok_spec h e res h2 evs heq).2.2.2.2.2.1

/-- Claim C9 (witness): the frame property at a concrete default
orchestrator. -/
theorem aegis_c9_handle_frame_witness :
    handleState defaultHandlerU () = defaultHandlerU :=
  aegis_c9_handle_frame defaultHandlerU () (handleResult defaultHandlerU ())
    (handleState defaultHandlerU ()) (handleEvents defaultHandlerU ()) rfl

/-- Claim C10 (counterexample): not every invocation of the query error
handler closure invokes the logger.  With a matching adapter whose
`extractMetadata` rejects and the severity gate open (the `c3Handler`
scenario), the inner `handle` rejects, the closure re-raises before its
direct logger call, and zero logger invocations occur — even though the gate
permits logging. -/
theorem aegis_c10_counterexample :
    c3Handler.createQueryErrorHandler "q1" false () = Except.error () ∧
    countLogCalls (queryEvents c3Handler "q1" false ()) = 0 ∧
    (c3Handler.logAllErrors ||
      c3Handler.shouldLogError
        (some (((c3Handler.errorConfigs (c3Handler.getErrorVerb ())).getD
          c3Handler.defaultConfig).severity.getD .error))) = true :=
  ⟨rfl, rfl, rfl⟩

/-- Claim C10 (amended): whenever the inner `handle` call completes (its
metadata extraction does not reject — otherwise the closure re-raises and
makes no logger call), the query error handler closure additionally invokes
the logger directly — with the name-tagged message and metadata carrying the
`queryName` key — regardless of `logLevel` (including `'none'`) and
`logAllErrors`; the total number of logger invocations is then two when the
severity gate passes and one otherwise, hence at least one. -/
theorem aegis_c10_query_logger {ε : Type} (h : ErrorHandler ε) (q : String)
    (hasOnError : Bool) (e : ε) (res : ErrorResult ε) (h2 : ErrorHandler ε)
    (evs : List Event)
    (heq : h.handle e = Except.ok (res, h2, evs)) :
    h.createQueryErrorHandler q hasOnError e = Except.ok
      (evs ++ [directQueryLog q res] ++ (if hasOnError then [Event.onErrorCall] else [])) ∧
    countLogCalls
        (evs ++ [directQueryLog q res] ++ (if hasOnError then [Event.onErrorCall] else []))
      = (if (h.logAllErrors || h.shouldLogError (some (res.config.severity.getD .error)))
          then 2 else 1) ∧
    1 ≤ countLogCalls
        (evs ++ [directQueryLog q res] ++ (if hasOnError then [Event.onErrorCall] else [])) ∧
    (lookupLast (("queryName", q) :: (res.config.metadata.getD [])) "queryName").isSome = true ∧
    (lookupLast (res.config.metadata.getD []) "queryName" = Option.none →
      lookupLast (("queryName", q) :: (res.config.metadata.getD [])) "queryName" = some q) := by
  have hcnt := handle_ok_countLog h e res h2 evs heq
  have hd : countLogCalls [directQueryLog q res] = 1 := by
    simp [directQueryLog, countLogCalls]
  have ho : countLogCalls (if hasOnError then [Event.onErrorCall] else []) = 0 := by
    cases hasOnError <;> simp [countLogCalls]
  refine ⟨?_, ?_, ?_, ?_, ?_⟩
  · unfold ErrorHandler.createQueryErrorHandler
    rw [heq]
    rfl
  · rw [countLogCalls_append, countLogCalls_append, hcnt, hd, ho]
    split_ifs <;> rfl
  · rw [countLogCalls_append, countLogCalls_append, hd]
    omega
  · rw [lookupLast_cons_self]
    cases hl : lookupLast (res.config.metadata.getD []) "queryName" <;> rfl
  · intro hnone
    rw [lookupLast_cons_self, hnone]

/-- Claim C10 (witness): at a concrete default orchestrator (whose gate
passes), an invocation of the query error handler closure produces exactly
two logger invocations. -/
theorem aegis_c10_query_logger_witness :
    countLogCalls (queryEvents defaultHandlerU "q1" false ()) = 2 := by
  have t := aegis_c10_query_logger defaultHandlerU "q1" false ()
    (handleResult defaultHandlerU ()) (handleState defaultHandlerU ())
    (handleEvents defaultHandlerU ()) rfl
  have hq : queryEvents defaultHandlerU "q1" false () =
      handleEvents defaultHandlerU () ++
        [directQueryLog "q1" (handleResult defaultHandlerU ())] ++
        (if false then [Event.onErrorCall] else []) := by
    unfold queryEvents
    rw [t.1]
  rw [hq, t.2.1]
  decide
